import Mathlib

/-!
Shallow embedding of the `thresher` crate (`src/lib.rs`): a wrapping
allocator that tracks live allocated bytes in an `AtomicUsize`, holds a
threshold (`AtomicUsize`, initially `usize::MAX`) and a write-once callback
(`OnceLock`), and invokes the callback when a growth operation makes the
live count cross the threshold upward.

Machine integers (`usize`) are modelled as `Nat` with arithmetic taken
modulo `2 ^ 64`; atomic fetch-add / fetch-sub wrap.  The underlying
allocator's success (non-null pointer) is an explicit `Bool` parameter.
The registered callback is modelled by an identifier (`Option Nat`); an
invocation is recorded as the `usize` argument passed to it.
-/

/-- `2 ^ 64`: one more than `usize::MAX` on a 64-bit target. -/
def USIZE : Nat := 2 ^ 64

/-- Wrapping addition of two `usize` values (`AtomicUsize::fetch_add`). -/
def wrapAdd (a b : Nat) : Nat := (a + b) % USIZE

/-- Wrapping subtraction of two `usize` values (`AtomicUsize::fetch_sub`). -/
def wrapSub (a b : Nat) : Nat := (a + (USIZE - b % USIZE)) % USIZE

/-- The state of a `Thresher` instance: the live byte counter `allocated`,
the `threshold`, and the write-once `callback` slot (`OnceLock`), with the
stored function represented by an identifier. -/
structure Thresher where
  allocated : Nat
  threshold : Nat
  callback : Option Nat
deriving Repr, DecidableEq

/-- `Thresher::new`: counter 0, threshold `usize::MAX`, no callback. -/
def Thresher.new : Thresher :=
  { allocated := 0, threshold := USIZE - 1, callback := none }

/-- `Thresher::set_threshold`: store the new threshold. -/
def Thresher.set_threshold (t : Thresher) (threshold : Nat) : Thresher :=
  { t with threshold := threshold % USIZE }

/-- `Thresher::set_callback`: `OnceLock::set` followed by `.expect`.
Returns `true` on success; returns `false` when a callback was already
registered (the Rust code panics there and the `OnceLock` keeps the first
value). -/
def Thresher.set_callback (t : Thresher) (f : Nat) : Bool × Thresher :=
  match t.callback with
  | none => (true, { t with callback := some f })
  | some _ => (false, t)

/-- `Thresher::maybe_callback`: load the threshold, fetch-add the growth
delta capturing `old_allocated`, compute `new_allocated`, and invoke the
callback with `new_allocated` iff `new_allocated >= threshold`,
`old_allocated < threshold`, and a callback is registered.  The second
component records the argument of the invocation, if any. -/
def Thresher.maybe_callback (t : Thresher) (allocation_size : Nat) :
    Thresher × Option Nat :=
  let threshold := t.threshold
  let old_allocated := t.allocated
  let new_allocated := (old_allocated + allocation_size) % USIZE
  let t' : Thresher := { t with allocated := new_allocated }
  if new_allocated ≥ threshold ∧ old_allocated < threshold then
    match t'.callback with
    | some _ => (t', some new_allocated)
    | none => (t', none)
  else
    (t', none)

/-- `GlobalAlloc::alloc` for `Thresher`: delegate (success = non-null
result), and on success run the layout size through `maybe_callback`.
Returns (state, success-of-the-underlying-allocator passed through
unchanged, recorded callback invocation). -/
def Thresher.alloc (t : Thresher) (success : Bool) (size : Nat) :
    Thresher × Bool × Option Nat :=
  if success then
    let r := t.maybe_callback size
    (r.1, true, r.2)
  else
    (t, false, none)

/-- `GlobalAlloc::alloc_zeroed` for `Thresher`: identical bookkeeping to
`alloc`. -/
def Thresher.alloc_zeroed (t : Thresher) (success : Bool) (size : Nat) :
    Thresher × Bool × Option Nat :=
  if success then
    let r := t.maybe_callback size
    (r.1, true, r.2)
  else
    (t, false, none)

/-- `GlobalAlloc::dealloc` for `Thresher`: delegate unconditionally, then
fetch-sub the layout size.  No callback invocation is possible; the second
component records that none happened. -/
def Thresher.dealloc (t : Thresher) (size : Nat) : Thresher × Option Nat :=
  ({ t with allocated := wrapSub t.allocated size }, none)

/-- `GlobalAlloc::realloc` for `Thresher`: delegate; on success, if the new
size exceeds the old layout's size run the difference through
`maybe_callback`, otherwise fetch-sub the difference.  (The Rust code
rebuilds a layout from the requested size and the old alignment;
`Layout::size` of that layout is the requested size itself.) -/
def Thresher.realloc (t : Thresher) (success : Bool) (old_size size : Nat) :
    Thresher × Bool × Option Nat :=
  if success then
    let new_size := size
    if new_size > old_size then
      let r := t.maybe_callback (new_size - old_size)
      (r.1, true, r.2)
    else
      ({ t with allocated := wrapSub t.allocated (old_size - new_size) },
        true, none)
  else
    (t, false, none)

/-- One operation of a sequential trace against a `Thresher` instance. -/
inductive Op where
  | alloc (success : Bool) (size : Nat)
  | allocZeroed (success : Bool) (size : Nat)
  | dealloc (size : Nat)
  | realloc (success : Bool) (oldSize newSize : Nat)
  | setThreshold (v : Nat)
  | setCallback (f : Nat)
deriving Repr, DecidableEq

/-- Apply one operation; record the callback invocation it caused, if any. -/
def step (t : Thresher) : Op → Thresher × Option Nat
  | .alloc s size => let r := t.alloc s size; (r.1, r.2.2)
  | .allocZeroed s size => let r := t.alloc_zeroed s size; (r.1, r.2.2)
  | .dealloc size => t.dealloc size
  | .realloc s o n => let r := t.realloc s o n; (r.1, r.2.2)
  | .setThreshold v => (t.set_threshold v, none)
  | .setCallback f => ((t.set_callback f).2, none)

/-- Run a sequential trace; collect the callback invocations in order. -/
def run (t : Thresher) : List Op → Thresher × List Nat
  | [] => (t, [])
  | op :: ops =>
      let r := step t op
      let rest := run r.1 ops
      (rest.1, r.2.toList ++ rest.2)

/-- The growth delta an operation feeds into the edge detector (0 for
failed operations, shrinks and configuration calls). -/
def growthDelta : Op → Nat
  | .alloc true size => size
  | .allocZeroed true size => size
  | .realloc true o n => if n > o then n - o else 0
  | _ => 0

/-- The shrink delta an operation subtracts from the live count (0 for
failed operations, growths and configuration calls). -/
def shrinkDelta : Op → Nat
  | .dealloc size => size
  | .realloc true o n => if n > o then 0 else o - n
  | _ => 0

/-- Total growth over a trace. -/
def growthSum (ops : List Op) : Nat := (ops.map growthDelta).sum

/-- Total shrinkage over a trace. -/
def shrinkSum (ops : List Op) : Nat := (ops.map shrinkDelta).sum

-- ### Basic lemmas about the embedding

theorem maybe_callback_fst (t : Thresher) (d : Nat) :
    (t.maybe_callback d).1 =
      { t with allocated := (t.allocated + d) % USIZE } := by
  simp only [Thresher.maybe_callback]
  split
  · cases t.callback <;> rfl
  · rfl

theorem maybe_callback_snd (t : Thresher) (d : Nat) (h : t.callback.isSome) :
    (t.maybe_callback d).2 =
      if (t.allocated + d) % USIZE ≥ t.threshold ∧ t.allocated < t.threshold
      then some ((t.allocated + d) % USIZE) else none := by
  simp only [Thresher.maybe_callback]
  cases hcb : t.callback with
  | none => rw [hcb] at h; simp at h
  | some f =>
      simp only [hcb]
      split <;> rfl

theorem maybe_callback_snd_none (t : Thresher) (d : Nat)
    (h : ¬ t.allocated < t.threshold) : (t.maybe_callback d).2 = none := by
  simp only [Thresher.maybe_callback]
  split
  · next hc => exact absurd hc.2 h
  · cases t.callback <;> rfl

/-- C1: for a growth delta `d` applied through the edge detector with a
registered callback, the counter becomes `(old + d) mod 2^64`, the callback
is invoked iff `new ≥ threshold` and `old < threshold` and then receives
`new`, and a subsequent growth while the count is still at or above the
threshold does not invoke it again. -/
theorem edge_trigger_exact (t : Thresher) (d : Nat)
    (hcb : t.callback.isSome) :
    (t.maybe_callback d).1.allocated = (t.allocated + d) % USIZE ∧
    ((t.maybe_callback d).2 =
      if (t.allocated + d) % USIZE ≥ t.threshold ∧ t.allocated < t.threshold
      then some ((t.allocated + d) % USIZE) else none) ∧
    (∀ d₂ : Nat, (t.maybe_callback d).1.allocated ≥ t.threshold →
      ((t.maybe_callback d).1.maybe_callback d₂).2 = none) := by
  refine ⟨by rw [maybe_callback_fst], maybe_callback_snd t d hcb, ?_⟩
  intro d₂ hge
  apply maybe_callback_snd_none
  rw [maybe_callback_fst]
  rw [maybe_callback_fst] at hge
  simpa using hge

/-- Witness for C1 at a concrete input: counter 0, threshold 100,
callback registered, growth of 150 fires with argument 150, and the
follow-up clause applies. -/
theorem edge_trigger_exact_witness :
    let t : Thresher := ⟨0, 100, some 0⟩
    (t.callback.isSome ∧
      ((t.maybe_callback 150).1.allocated = (t.allocated + 150) % USIZE ∧
      ((t.maybe_callback 150).2 =
        if (t.allocated + 150) % USIZE ≥ t.threshold ∧
            t.allocated < t.threshold
        then some ((t.allocated + 150) % USIZE) else none) ∧
      (∀ d₂ : Nat, (t.maybe_callback 150).1.allocated ≥ t.threshold →
        ((t.maybe_callback 150).1.maybe_callback d₂).2 = none))) :=
  ⟨rfl, edge_trigger_exact ⟨0, 100, some 0⟩ 150 rfl⟩

/-- C4: a successful reallocate with `new_size > old_size` routes the
delta `new_size - old_size` through the edge detector; with
`new_size <= old_size` it subtracts `old_size - new_size` from the counter
and records no invocation; and the concrete scenario (count 0, threshold
1,000,000, realloc 100,000 → 1,200,000) fires once with 1,100,000. -/
theorem realloc_growth_shrink (t : Thresher) (o n : Nat) :
    (n > o →
      (t.realloc true o n).1 = (t.maybe_callback (n - o)).1 ∧
      (t.realloc true o n).2.2 = (t.maybe_callback (n - o)).2) ∧
    (n ≤ o →
      (t.realloc true o n).1 =
        { t with allocated := wrapSub t.allocated (o - n) } ∧
      (t.realloc true o n).2.2 = none) ∧
    Thresher.realloc ⟨0, 1000000, some 0⟩ true 100000 1200000 =
      (⟨1100000, 1000000, some 0⟩, true, some 1100000) := by
  refine ⟨?_, ?_, by decide⟩
  · intro h
    simp [Thresher.realloc, h]
  · intro h
    have hlt : ¬ n > o := Nat.not_lt.mpr h
    simp [Thresher.realloc, hlt]

/-- Witness for C4: growth case at old size 3, new size 5; shrink case at
old size 5, new size 3. -/
theorem realloc_growth_shrink_witness :
    ((Thresher.realloc ⟨0, 10, some 0⟩ true 3 5).1 =
        (Thresher.maybe_callback ⟨0, 10, some 0⟩ 2).1 ∧
      (Thresher.realloc ⟨0, 10, some 0⟩ true 3 5).2.2 =
        (Thresher.maybe_callback ⟨0, 10, some 0⟩ 2).2) ∧
    ((Thresher.realloc ⟨6, 10, some 0⟩ true 5 3).1 =
        { allocated := wrapSub 6 2, threshold := 10, callback := some 0 } ∧
      (Thresher.realloc ⟨6, 10, some 0⟩ true 5 3).2.2 = none) :=
  ⟨(realloc_growth_shrink ⟨0, 10, some 0⟩ 3 5).1 (by decide),
    (realloc_growth_shrink ⟨6, 10, some 0⟩ 5 3).2.1 (by decide)⟩

/-- C5: when the underlying allocator fails (null result), each operation
passes the failure through unchanged, leaves the state (counter, threshold,
callback slot) untouched, and records no callback invocation. -/
theorem failure_no_op (t : Thresher) (size o n : Nat) :
    t.alloc false size = (t, false, none) ∧
    t.alloc_zeroed false size = (t, false, none) ∧
    t.realloc false o n = (t, false, none) :=
  ⟨rfl, rfl, rfl⟩

/-- C6: the first `set_callback` on an instance succeeds and stores the
function; a second call fails (panics) and leaves the first registration in
place. -/
theorem set_callback_once (t : Thresher) (f g : Nat)
    (h : t.callback = none) :
    (t.set_callback f).1 = true ∧
    (t.set_callback f).2.callback = some f ∧
    ((t.set_callback f).2.set_callback g).1 = false ∧
    ((t.set_callback f).2.set_callback g).2.callback = some f := by
  simp [Thresher.set_callback, h]

/-- Witness for C6 on a fresh instance. -/
theorem set_callback_once_witness :
    Thresher.new.callback = none ∧
    ((Thresher.new.set_callback 1).1 = true ∧
      (Thresher.new.set_callback 1).2.callback = some 1 ∧
      ((Thresher.new.set_callback 1).2.set_callback 2).1 = false ∧
      ((Thresher.new.set_callback 1).2.set_callback 2).2.callback = some 1) :=
  ⟨rfl, set_callback_once Thresher.new 1 2 rfl⟩

/-- C8: no shrink operation ever invokes the callback: `dealloc` records no
invocation in any state, and neither does a reallocate (successful or not)
whose new size does not exceed the old size. -/
theorem shrink_never_fires (t : Thresher) (size : Nat) (s : Bool)
    (o n : Nat) (h : n ≤ o) :
    (t.dealloc size).2 = none ∧ (t.realloc s o n).2.2 = none := by
  refine ⟨rfl, ?_⟩
  cases s
  · rfl
  · have hlt : ¬ n > o := Nat.not_lt.mpr h
    simp [Thresher.realloc, hlt]

/-- Witness for C8 at a concrete state and sizes. -/
theorem shrink_never_fires_witness :
    (3 : Nat) ≤ 5 ∧
    ((Thresher.dealloc ⟨9, 4, some 0⟩ 4).2 = none ∧
      (Thresher.realloc ⟨9, 4, some 0⟩ true 5 3).2.2 = none) :=
  ⟨by decide, shrink_never_fires ⟨9, 4, some 0⟩ 4 true 5 3 (by decide)⟩

/-- C7: after the count has dropped back below the threshold, a growth that
crosses it again fires again; on the concrete trace (threshold 1,048,576)
grow 600,000, grow 600,000, shrink 700,000, grow 600,000 the callback fires
exactly twice, with arguments 1,200,000 and 1,100,000. -/
theorem rearm_after_drop :
    (∀ (t : Thresher) (d : Nat), t.callback.isSome →
      t.allocated < t.threshold →
      (t.allocated + d) % USIZE ≥ t.threshold →
      (t.maybe_callback d).2 = some ((t.allocated + d) % USIZE)) ∧
    (run ⟨0, 1048576, some 0⟩
      [.alloc true 600000, .alloc true 600000, .dealloc 700000,
        .alloc true 600000]).2 = [1200000, 1100000] := by
  constructor
  · intro t d hcb hlt hge
    rw [maybe_callback_snd t d hcb, if_pos ⟨hge, hlt⟩]
  · decide

/-- Witness for C7's re-arm clause: count 7, threshold 50, growth 60. -/
theorem rearm_after_drop_witness :
    (Thresher.maybe_callback ⟨7, 50, some 3⟩ 60).2 =
      some ((7 + 60) % USIZE) :=
  rearm_after_drop.1 ⟨7, 50, some 3⟩ 60 rfl (by decide) (by decide)

theorem USIZE_pos : 0 < USIZE := by norm_num [USIZE]

theorem wrapSub_cast (a b : Nat) :
    ((wrapSub a b : Nat) : ZMod USIZE) = (a : ZMod USIZE) - b := by
  have hle : b % USIZE ≤ USIZE := le_of_lt (Nat.mod_lt _ USIZE_pos)
  unfold wrapSub
  rw [ZMod.natCast_mod, Nat.cast_add, Nat.cast_sub hle, ZMod.natCast_self,
    ZMod.natCast_mod]
  ring

/-- Each step changes the counter, modulo `2 ^ 64`, by exactly its growth
delta minus its shrink delta. -/
theorem step_allocated_cast (t : Thresher) (op : Op) :
    (((step t op).1.allocated : ZMod USIZE)) =
      (t.allocated : ZMod USIZE) + growthDelta op - shrinkDelta op := by
  cases op with
  | alloc s size =>
      cases s with
      | false => simp [step, Thresher.alloc, growthDelta, shrinkDelta]
      | true =>
          show (((t.maybe_callback size).1.allocated : Nat) : ZMod USIZE) = _
          rw [maybe_callback_fst]
          simp only [growthDelta, shrinkDelta]
          rw [ZMod.natCast_mod]
          push_cast
          ring
  | allocZeroed s size =>
      cases s with
      | false => simp [step, Thresher.alloc_zeroed, growthDelta, shrinkDelta]
      | true =>
          show (((t.maybe_callback size).1.allocated : Nat) : ZMod USIZE) = _
          rw [maybe_callback_fst]
          simp only [growthDelta, shrinkDelta]
          rw [ZMod.natCast_mod]
          push_cast
          ring
  | dealloc size =>
      show ((wrapSub t.allocated size : Nat) : ZMod USIZE) = _
      rw [wrapSub_cast]
      simp only [growthDelta, shrinkDelta]
      push_cast
      ring
  | realloc s o n =>
      cases s with
      | false => simp [step, Thresher.realloc, growthDelta, shrinkDelta]
      | true =>
          by_cases h : n > o
          · show ((Thresher.realloc t true o n).1.allocated : ZMod USIZE) = _
            simp only [Thresher.realloc, if_pos h, growthDelta, shrinkDelta,
              if_true]
            rw [maybe_callback_fst]
            simp only [h, if_pos]
            rw [ZMod.natCast_mod]
            push_cast
            ring
          · show ((Thresher.realloc t true o n).1.allocated : ZMod USIZE) = _
            simp only [Thresher.realloc, if_neg h, growthDelta, shrinkDelta,
              if_true]
            rw [wrapSub_cast]
            push_cast
            ring
  | setThreshold v => simp [step, Thresher.set_threshold, growthDelta,
      shrinkDelta]
  | setCallback f =>
      cases hc : t.callback <;>
        simp [step, Thresher.set_callback, hc, growthDelta, shrinkDelta]

theorem step_allocated_lt (t : Thresher) (op : Op)
    (h : t.allocated < USIZE) : (step t op).1.allocated < USIZE := by
  cases op with
  | alloc s size =>
      cases s with
      | false => exact h
      | true =>
          show ((t.maybe_callback size).1.allocated) < USIZE
          rw [maybe_callback_fst]
          exact Nat.mod_lt _ USIZE_pos
  | allocZeroed s size =>
      cases s with
      | false => exact h
      | true =>
          show ((t.maybe_callback size).1.allocated) < USIZE
          rw [maybe_callback_fst]
          exact Nat.mod_lt _ USIZE_pos
  | dealloc size => exact Nat.mod_lt _ USIZE_pos
  | realloc s o n =>
      cases s with
      | false => exact h
      | true =>
          by_cases hgt : n > o
          · show (Thresher.realloc t true o n).1.allocated < USIZE
            simp only [Thresher.realloc, if_pos hgt, if_true]
            rw [maybe_callback_fst]
            exact Nat.mod_lt _ USIZE_pos
          · show (Thresher.realloc t true o n).1.allocated < USIZE
            simp only [Thresher.realloc, if_neg hgt, if_true]
            exact Nat.mod_lt _ USIZE_pos
  | setThreshold v => exact h
  | setCallback f => cases hc : t.callback <;>
      simp [step, Thresher.set_callback, hc] <;> exact h

theorem run_cons (t : Thresher) (op : Op) (ops : List Op) :
    (run t (op :: ops)).1 = (run (step t op).1 ops).1 := rfl

/-- Over a whole trace the counter equals, modulo `2 ^ 64`, the start value
plus total growth minus total shrinkage. -/
theorem run_allocated_cast (ops : List Op) : ∀ t : Thresher,
    (((run t ops).1.allocated : ZMod USIZE)) =
      (t.allocated : ZMod USIZE) + growthSum ops - shrinkSum ops := by
  induction ops with
  | nil => intro t; simp [run, growthSum, shrinkSum]
  | cons op ops ih =>
      intro t
      rw [run_cons, ih, step_allocated_cast]
      simp only [growthSum, shrinkSum, List.map_cons, List.sum_cons]
      push_cast
      ring

theorem run_allocated_lt (ops : List Op) : ∀ t : Thresher,
    t.allocated < USIZE → (run t ops).1.allocated < USIZE := by
  induction ops with
  | nil => intro t h; exact h
  | cons op ops ih =>
      intro t h
      rw [run_cons]
      exact ih _ (step_allocated_lt t op h)

/-- C2: starting from a zero counter, a sequential trace whose total
shrinkage does not exceed its total growth and whose net value fits in a
`usize` ends with the counter equal to total growth minus total shrinkage,
and so does every permutation of the trace. -/
theorem net_accounting (t : Thresher) (ops ops' : List Op)
    (hperm : ops.Perm ops') (h0 : t.allocated = 0)
    (hle : shrinkSum ops ≤ growthSum ops)
    (hlt : growthSum ops - shrinkSum ops < USIZE) :
    (run t ops).1.allocated = growthSum ops - shrinkSum ops ∧
    (run t ops').1.allocated = growthSum ops - shrinkSum ops := by
  have key : ∀ l : List Op, growthSum l = growthSum ops →
      shrinkSum l = shrinkSum ops →
      (run t l).1.allocated = growthSum ops - shrinkSum ops := by
    intro l hgl hsl
    have hcast := run_allocated_cast l t
    rw [h0, hgl, hsl] at hcast
    have hfin : (run t l).1.allocated < USIZE :=
      run_allocated_lt l t (by rw [h0]; exact USIZE_pos)
    have heq : ((run t l).1.allocated : ZMod USIZE) =
        ((growthSum ops - shrinkSum ops : Nat) : ZMod USIZE) := by
      rw [hcast, Nat.cast_sub hle]
      push_cast
      ring
    have hval := congrArg ZMod.val heq
    rwa [ZMod.val_cast_of_lt hfin, ZMod.val_cast_of_lt hlt] at hval
  refine ⟨key ops rfl rfl, key ops' ?_ ?_⟩
  · exact ((hperm.map growthDelta).sum_eq).symm
  · exact ((hperm.map shrinkDelta).sum_eq).symm

/-- Witness for C2: the trace [grow 5, shrink 3] and its transposition both
end with the counter at 2. -/
theorem net_accounting_witness :
    Thresher.new.allocated = 0 ∧
    shrinkSum [Op.alloc true 5, Op.dealloc 3] ≤
      growthSum [Op.alloc true 5, Op.dealloc 3] ∧
    growthSum [Op.alloc true 5, Op.dealloc 3] -
      shrinkSum [Op.alloc true 5, Op.dealloc 3] < USIZE ∧
    ((run Thresher.new [Op.alloc true 5, Op.dealloc 3]).1.allocated =
        growthSum [Op.alloc true 5, Op.dealloc 3] -
          shrinkSum [Op.alloc true 5, Op.dealloc 3] ∧
      (run Thresher.new [Op.dealloc 3, Op.alloc true 5]).1.allocated =
        growthSum [Op.alloc true 5, Op.dealloc 3] -
          shrinkSum [Op.alloc true 5, Op.dealloc 3]) :=
  ⟨rfl, by decide, by decide,
    net_accounting Thresher.new [Op.alloc true 5, Op.dealloc 3]
      [Op.dealloc 3, Op.alloc true 5] (List.Perm.swap _ _ _) rfl
      (by decide) (by decide)⟩

/-- C3 (failing input): with the threshold never set (so still
`usize::MAX = 2 ^ 64 - 1`) and a callback registered, growth operations
that bring the live count to exactly `usize::MAX` do invoke the callback,
with argument `2 ^ 64 - 1` — the edge condition `new >= threshold` is
satisfied at equality, so the default threshold does not fully disable the
callback. -/
theorem default_threshold_can_fire :
    (run (Thresher.new.set_callback 0).2
      [.alloc true (2 ^ 63 - 1), .alloc true (2 ^ 63 - 1),
        .alloc true 1]).2 = [2 ^ 64 - 1] := by
  decide

theorem maybe_callback_arg (t : Thresher) (d v : Nat)
    (h : (t.maybe_callback d).2 = some v) :
    v = (t.allocated + d) % USIZE := by
  simp only [Thresher.maybe_callback] at h
  split at h
  · cases hc : t.callback with
    | none => rw [hc] at h; simp at h
    | some f => rw [hc] at h; simpa using h.symm
  · exact absurd h (by simp)

/-- C9: counter arithmetic wraps modulo `2 ^ 64`: a shrink larger than the
current count wraps the counter to `2 ^ 64 - (size - count)` (no error, no
clamping), and a growth pushing the count past `usize::MAX` wraps the
counter — and any value handed to the callback — to
`count + delta - 2 ^ 64`. -/
theorem counter_wraps (t : Thresher) (size d : Nat)
    (ha : t.allocated < USIZE) (hs : size < USIZE) (hd : d < USIZE)
    (hshr : t.allocated < size) (hgrow : USIZE ≤ t.allocated + d) :
    (t.dealloc size).1.allocated = USIZE - (size - t.allocated) ∧
    (t.maybe_callback d).1.allocated = t.allocated + d - USIZE ∧
    (∀ v, (t.maybe_callback d).2 = some v →
      v = t.allocated + d - USIZE) := by
  refine ⟨?_, ?_, ?_⟩
  · show wrapSub t.allocated size = USIZE - (size - t.allocated)
    unfold wrapSub
    rw [Nat.mod_eq_of_lt hs, Nat.mod_eq_of_lt (by omega)]
    omega
  · rw [maybe_callback_fst]
    show (t.allocated + d) % USIZE = t.allocated + d - USIZE
    rw [Nat.mod_eq_sub_mod hgrow, Nat.mod_eq_of_lt (by omega)]
  · intro v hv
    rw [maybe_callback_arg t d v hv, Nat.mod_eq_sub_mod hgrow,
      Nat.mod_eq_of_lt (by omega)]

/-- Witness for C9: count 5, shrink of 7 wraps to `2 ^ 64 - 2`; growth of
`2 ^ 64 - 2` wraps the counter to 3. -/
theorem counter_wraps_witness :
    (5 : Nat) < USIZE ∧ (7 : Nat) < USIZE ∧ 2 ^ 64 - 2 < USIZE ∧
    (5 : Nat) < 7 ∧ USIZE ≤ 5 + (2 ^ 64 - 2) ∧
    ((Thresher.dealloc ⟨5, 3, some 0⟩ 7).1.allocated = USIZE - (7 - 5) ∧
      (Thresher.maybe_callback ⟨5, 3, some 0⟩ (2 ^ 64 - 2)).1.allocated =
        5 + (2 ^ 64 - 2) - USIZE ∧
      (∀ v, (Thresher.maybe_callback ⟨5, 3, some 0⟩ (2 ^ 64 - 2)).2 =
          some v → v = 5 + (2 ^ 64 - 2) - USIZE)) :=
  ⟨by decide, by decide, by decide, by decide, by decide,
    counter_wraps ⟨5, 3, some 0⟩ 7 (2 ^ 64 - 2) (by decide) (by decide)
      (by decide) (by decide) (by decide)⟩

theorem maybe_callback_snd_of_no_cb (t : Thresher) (d : Nat)
    (h : t.callback = none) : (t.maybe_callback d).2 = none := by
  simp only [Thresher.maybe_callback]
  split
  · simp [h]
  · cases t.callback <;> rfl

/-- C10: with no callback registered, a threshold-crossing growth still
updates the counter but invokes nothing; registering a callback afterwards
invokes nothing by itself, and while the count sits at or above the
threshold a further growth does not invoke the new callback either. -/
theorem unregistered_crossing_consumed (t : Thresher) (d d₂ f : Nat)
    (hcb : t.callback = none) :
    (t.maybe_callback d).2 = none ∧
    (t.maybe_callback d).1.allocated = (t.allocated + d) % USIZE ∧
    (step (t.maybe_callback d).1 (Op.setCallback f)).2 = none ∧
    (((t.maybe_callback d).1.set_callback f).2.allocated ≥
        ((t.maybe_callback d).1.set_callback f).2.threshold →
      ((((t.maybe_callback d).1.set_callback f).2).maybe_callback d₂).2 =
        none) := by
  refine ⟨maybe_callback_snd_of_no_cb t d hcb, by rw [maybe_callback_fst],
    rfl, ?_⟩
  intro hge
  exact maybe_callback_snd_none _ d₂ (by omega)

/-- Witness for C10: count 0, threshold 50, no callback; growth of 60
crosses silently, then a registered callback stays silent on a further
growth of 5 while the count is above the threshold. -/
theorem unregistered_crossing_consumed_witness :
    Thresher.callback ⟨0, 50, none⟩ = none ∧
    ((Thresher.maybe_callback ⟨0, 50, none⟩ 60).2 = none ∧
      (Thresher.maybe_callback ⟨0, 50, none⟩ 60).1.allocated =
        (0 + 60) % USIZE ∧
      (step (Thresher.maybe_callback ⟨0, 50, none⟩ 60).1
        (Op.setCallback 1)).2 = none ∧
      (((Thresher.maybe_callback ⟨0, 50, none⟩ 60).1.set_callback
            1).2.allocated ≥
          ((Thresher.maybe_callback ⟨0, 50, none⟩ 60).1.set_callback
            1).2.threshold →
        ((((Thresher.maybe_callback ⟨0, 50, none⟩ 60).1.set_callback
            1).2).maybe_callback 5).2 = none)) :=
  ⟨rfl, unregistered_crossing_consumed ⟨0, 50, none⟩ 60 5 1 rfl⟩
